import Mathlib

/-!
Shallow embedding of steam_api.py: the class SteamAPI with operations
get_steam_id, get_app_list and find_app_id, over an explicit state
(the instance fields api_key and app_list_cache) and an explicit
transport outcome for each HTTP request.
-/

/-- JSON values as produced by response.json(). An object models a Python
dict coming from JSON parsing; when the same key is bound twice, the later
binding shadows the earlier one, matching dict semantics. -/
inductive Json where
  | null : Json
  | bool (b : Bool) : Json
  | num (n : Int) : Json
  | str (s : String) : Json
  | arr (elems : List Json) : Json
  | obj (fields : List (String × Json)) : Json
deriving Repr

/-- Python exceptions that the embedded code can raise and that are not
requests.RequestException, hence are never caught by the except clauses
in steam_api.py. -/
inductive PyExn where
  | keyError : PyExn
  | typeError : PyExn
  | attributeError : PyExn
deriving Repr, DecidableEq

/-- Python truthiness of a parsed JSON value. -/
def Json.truthy : Json → Bool
  | .null => false
  | .bool b => b
  | .num n => n != 0
  | .str s => s != ""
  | .arr elems => !elems.isEmpty
  | .obj fields => !fields.isEmpty

/-- Lookup in a dict represented as its insertion sequence: the value of
the latest binding of the key, as Python dict overwrite semantics give. -/
def dictLookup (fields : List (String × Json)) (key : String) : Option Json :=
  (fields.reverse.find? (fun p => p.1 == key)).map Prod.snd

/-- Python subscript data[key] with a string key: a KeyError on a dict
missing the key, a TypeError on any non-dict value. -/
def Json.subscript : Json → String → Except PyExn Json
  | .obj fields, key =>
    match dictLookup fields key with
    | some v => .ok v
    | none => .error .keyError
  | _, _ => .error .typeError

/-- Python d.get(key): None when the key is missing; AttributeError when
the receiver is not a dict. -/
def Json.dictGet : Json → String → Except PyExn (Option Json)
  | .obj fields, key => .ok (dictLookup fields key)
  | _, _ => .error .attributeError

/-- Python s.lower() on a string: each character lowercased. -/
def strLower (s : String) : String :=
  String.mk (s.data.map Char.toLower)

/-- Python s.lower() on a JSON value: AttributeError unless it is a string. -/
def Json.pyLower : Json → Except PyExn String
  | .str s => .ok (strLower s)
  | _ => .error .attributeError

/-- Outcome of one HTTP request as seen through requests.get plus
raise_for_status plus response.json(): either a requests.RequestException
(network error or non-2xx status), or a successfully parsed JSON body. -/
inductive Transport where
  | requestError : Transport
  | success (body : Json) : Transport
deriving Repr

/-- The mutable fields of a SteamAPI instance. -/
structure SteamAPIState where
  api_key : String
  app_list_cache : Option Json
deriving Repr

/-- SteamAPI.__init__: stores the key, cache starts unset (None). -/
def SteamAPI.init (api_key : String) : SteamAPIState :=
  { api_key := api_key, app_list_cache := none }

/-- Python truthiness of the app_list_cache field (None is falsy). -/
def cacheTruthy : Option Json → Bool
  | none => false
  | some j => j.truthy

/-- SteamAPI.get_steam_id. The try block catches requests.RequestException
only, returning None; KeyError and AttributeError raised while digging
into the body propagate as errors. On success it reads
data.subscript "response" then .get of steamid, returns the steamid when
truthy and None otherwise. -/
def get_steam_id (api_key username : String) (t : Transport) :
    Except PyExn (Option Json) :=
  match t with
  | .requestError => .ok none
  | .success data =>
    match data.subscript "response" with
    | .error e => .error e
    | .ok resp =>
      match resp.dictGet "steamid" with
      | .error e => .error e
      | .ok steam_id =>
        if (steam_id.map Json.truthy).getD false then .ok steam_id
        else .ok none

/-- SteamAPI.get_app_list. Returns the result value (or uncaught
exception), the new state, and whether a network request was issued.
When the cache is truthy it is returned with no request; otherwise a
request is made: on requests.RequestException the except clause returns
an empty list leaving the cache unchanged; on success the apps value is
stored in the cache and returned; a KeyError while extracting it
propagates with the cache unchanged. -/
def get_app_list (t : Transport) (s : SteamAPIState) :
    Except PyExn Json × SteamAPIState × Bool :=
  if cacheTruthy s.app_list_cache then
    (.ok (s.app_list_cache.getD (.arr [])), s, false)
  else
    match t with
    | .requestError => (.ok (.arr []), s, true)
    | .success data =>
      match data.subscript "applist" with
      | .error e => (.error e, s, true)
      | .ok applist =>
        match applist.subscript "apps" with
        | .error e => (.error e, s, true)
        | .ok apps => (.ok apps, { s with app_list_cache := some apps }, true)

/-- One step of the dict comprehension in find_app_id: evaluates the key
expression app.subscript "name" then .lower(), and the value expression
app.subscript "appid". -/
def appEntry (app : Json) : Except PyExn (String × Json) := do
  let name ← app.subscript "name"
  let lname ← name.pyLower
  let appid ← app.subscript "appid"
  pure (lname, appid)

/-- The comprehension loop over the iterated elements, in order; the
first exception raised aborts the comprehension. -/
def buildEntries : List Json → Except PyExn (List (String × Json))
  | [] => .ok []
  | app :: rest =>
    match appEntry app with
    | .error e => .error e
    | .ok entry =>
      match buildEntries rest with
      | .error e => .error e
      | .ok entries => .ok (entry :: entries)

/-- The dict comprehension of find_app_id, as the insertion sequence of
the built dict; iterating a non-list raises TypeError. -/
def buildAppDict : Json → Except PyExn (List (String × Json))
  | .arr apps => buildEntries apps
  | _ => .error .typeError

/-- SteamAPI.find_app_id. An empty or absent game_name returns None at
once with no request; otherwise get_app_list runs, the dict is built and
the lowercased name is looked up; the lookup result is returned as is
(its truthiness only selects the log message). -/
def find_app_id (game_name : Option String) (t : Transport) (s : SteamAPIState) :
    Except PyExn (Option Json) × SteamAPIState × Bool :=
  match game_name with
  | none => (.ok none, s, false)
  | some g =>
    if g = "" then (.ok none, s, false)
    else
      match get_app_list t s with
      | (.error e, s1, fetched) => (.error e, s1, fetched)
      | (.ok apps, s1, fetched) =>
        match buildAppDict apps with
        | .error e => (.error e, s1, fetched)
        | .ok app_dict => (.ok (dictLookup app_dict (strLower g)), s1, fetched)

/-- Runs get_app_list n times on one instance. The oracle gives the
outcome of the k-th network request actually issued; the last component
counts requests issued so far (starting from k). Returns the list of
results, the final state and the final request count. -/
def runCalls (oracle : Nat → Transport) :
    Nat → SteamAPIState → Nat → List (Except PyExn Json) × SteamAPIState × Nat
  | 0, s, k => ([], s, k)
  | n + 1, s, k =>
    let step := get_app_list (oracle k) s
    let rest := runCalls oracle n step.2.1 (if step.2.2 then k + 1 else k)
    (step.1 :: rest.1, rest.2.1, rest.2.2)

/-- A well-formed app record, as the Steam app list endpoint returns. -/
def mkApp (name : String) (appid : Int) : Json :=
  .obj [("name", .str name), ("appid", .num appid)]

/-- A well-formed app list from name and appid pairs. -/
def mkAppList (apps : List (String × Int)) : Json :=
  .arr (apps.map fun p => mkApp p.1 p.2)

/-- A well-formed body of the app list endpoint. -/
def mkAppListBody (apps : List (String × Int)) : Json :=
  .obj [("applist", .obj [("apps", mkAppList apps)])]

/-- A well-formed body of the vanity URL endpoint carrying a steamid. -/
def mkSteamIdBody (steamid : Json) : Json :=
  .obj [("response", .obj [("steamid", steamid)])]

lemma appEntry_mkApp (n : String) (a : Int) :
    appEntry (mkApp n a) = .ok (strLower n, .num a) := rfl

lemma buildEntries_mkAppList (xs : List (String × Int)) :
    buildEntries (xs.map fun p => mkApp p.1 p.2)
      = .ok (xs.map fun p => (strLower p.1, Json.num p.2)) := by
  induction xs with
  | nil => rfl
  | cons p rest ih => simp [List.map_cons, buildEntries, appEntry_mkApp, ih]

lemma dictLookup_map (xs : List (String × Int)) (key : String) :
    dictLookup (xs.map fun p => (strLower p.1, Json.num p.2)) key
      = (xs.reverse.find? (fun p => strLower p.1 == key)).map (fun p => Json.num p.2) := by
  unfold dictLookup
  rw [← List.map_reverse, List.find?_map, Option.map_map]
  rfl

lemma get_app_list_success (key : String) (xs : List (String × Int)) :
    get_app_list (.success (mkAppListBody xs)) (SteamAPI.init key)
      = (.ok (mkAppList xs), { api_key := key, app_list_cache := some (mkAppList xs) }, true) := rfl

lemma find_app_id_spec (key g : String) (hg : ¬ g = "") (xs : List (String × Int)) :
    find_app_id (some g) (.success (mkAppListBody xs)) (SteamAPI.init key)
      = (.ok ((xs.reverse.find? (fun p => strLower p.1 == strLower g)).map (fun p => Json.num p.2)),
         { api_key := key, app_list_cache := some (mkAppList xs) }, true) := by
  simp only [find_app_id]
  rw [if_neg hg, get_app_list_success]
  simp only [mkAppList, buildAppDict, buildEntries_mkAppList, dictLookup_map]

lemma get_app_list_cached (t : Transport) (s : SteamAPIState) (j : Json)
    (h1 : s.app_list_cache = some j) (h2 : j.truthy = true) :
    get_app_list t s = (.ok j, s, false) := by
  simp [get_app_list, h1, cacheTruthy, h2]

lemma runCalls_cached (oracle : Nat → Transport) (n k : Nat) (s : SteamAPIState) (j : Json)
    (h1 : s.app_list_cache = some j) (h2 : j.truthy = true) :
    runCalls oracle n s k = (List.replicate n (.ok j), s, k) := by
  induction n with
  | zero => rfl
  | succ m ih =>
    simp [runCalls, get_app_list_cached _ _ _ h1 h2, ih, List.replicate_succ]

lemma truthy_mkAppList (xs : List (String × Int)) (h : xs ≠ []) :
    (mkAppList xs).truthy = true := by
  simp [mkAppList, Json.truthy, h]

lemma runCalls_first_fetch (oracle : Nat → Transport) (key : String) (n : Nat)
    (xs : List (String × Int)) (hxs : xs ≠ [])
    (h0 : oracle 0 = .success (mkAppListBody xs)) :
    runCalls oracle (n + 1) (SteamAPI.init key) 0
      = (List.replicate (n + 1) (.ok (mkAppList xs)),
         { api_key := key, app_list_cache := some (mkAppList xs) }, 1) := by
  have hstep := get_app_list_success key xs
  have hrest := runCalls_cached oracle n 1
      { api_key := key, app_list_cache := some (mkAppList xs) } (mkAppList xs) rfl
      (truthy_mkAppList xs hxs)
  simp [runCalls, h0, hstep, hrest, List.replicate_succ]

lemma get_app_list_requestError (s : SteamAPIState)
    (hs : cacheTruthy s.app_list_cache = false) :
    get_app_list .requestError s = (.ok (.arr []), s, true) := by
  simp [get_app_list, hs]

lemma get_app_list_emptyBody (s : SteamAPIState)
    (hs : cacheTruthy s.app_list_cache = false) :
    get_app_list (.success (mkAppListBody [])) s
      = (.ok (.arr []), { s with app_list_cache := some (.arr []) }, true) := by
  simp [get_app_list, hs, mkAppListBody, Json.subscript, dictLookup, mkAppList]

lemma runCalls_empty_refetch (oracle : Nat → Transport)
    (h : ∀ j, oracle j = .requestError ∨ oracle j = .success (mkAppListBody [])) :
    ∀ (n k : Nat) (s : SteamAPIState), cacheTruthy s.app_list_cache = false →
      (runCalls oracle n s k).2.2 = k + n := by
  intro n
  induction n with
  | zero => intro k s hs; rfl
  | succ m ih =>
    intro k s hs
    rcases h k with hk | hk
    · have hstep := get_app_list_requestError s hs
      have := ih (k + 1) s hs
      simp [runCalls, hk, hstep, this]
      omega
    · have hstep := get_app_list_emptyBody s hs
      have := ih (k + 1) { s with app_list_cache := some (.arr []) } (by simp [cacheTruthy, Json.truthy])
      simp [runCalls, hk, hstep, this]
      omega

lemma find_app_id_last_match (key g n : String) (a : Int) (xs zs : List (String × Int))
    (hg : ¬ g = "") (hn : strLower n = strLower g)
    (hz : ∀ q ∈ zs, strLower q.1 ≠ strLower g) :
    (find_app_id (some g) (.success (mkAppListBody (xs ++ (n, a) :: zs)))
        (SteamAPI.init key)).1 = .ok (some (.num a)) := by
  rw [find_app_id_spec key g hg]
  have hrev : (xs ++ (n, a) :: zs).reverse = zs.reverse ++ (n, a) :: xs.reverse := by
    simp
  rw [hrev, List.find?_append]
  have hz' : zs.reverse.find? (fun p => strLower p.1 == strLower g) = none := by
    rw [List.find?_eq_none]
    intro p hp
    simp only [beq_iff_eq]
    exact hz p (List.mem_reverse.mp hp)
  have hcons : ((n, a) :: xs.reverse).find? (fun p => strLower p.1 == strLower g)
      = some (n, a) := by
    rw [List.find?_cons_of_pos]
    simpa using hn
  rw [hz', hcons]
  rfl

lemma fetch_flag (t : Transport) (s : SteamAPIState)
    (hs : cacheTruthy s.app_list_cache = false) :
    (get_app_list t s).2.2 = true := by
  cases t with
  | requestError => simp [get_app_list, hs]
  | success data =>
    simp only [get_app_list, hs, Bool.false_eq_true, if_false]
    rcases h1 : data.subscript "applist" with e | applist
    · simp [h1]
    · rcases h2 : applist.subscript "apps" with e | apps <;> simp [h1, h2]

/-- Claim C1, counterexample: a successful HTTP response whose JSON body is
missing the expected top level field makes all three operations raise an
uncaught KeyError instead of returning a value, refuting the claim that no
exception ever propagates to the caller. -/
theorem c1_missing_key_raises :
    get_steam_id "key" "user" (.success (Json.obj [])) = .error .keyError
    ∧ get_app_list (.success (Json.obj [])) (SteamAPI.init "key")
        = (.error .keyError, SteamAPI.init "key", true)
    ∧ find_app_id (some "portal") (.success (Json.obj [])) (SteamAPI.init "key")
        = (.error .keyError, SteamAPI.init "key", true) :=
  ⟨rfl, rfl, rfl⟩

/-- Claim C1, amended: transport layer failures (requests.RequestException)
never propagate: get_steam_id returns None, get_app_list returns a value, and
find_app_id returns a value when the cache is unset; a successful response
whose response object merely lacks the steamid field is reported as absence.
Only a successful response missing an expected top level JSON key raises. -/
theorem c1_no_exception_amended :
    (∀ api_key username : String,
        get_steam_id api_key username .requestError = .ok none)
    ∧ (∀ s : SteamAPIState, ∃ j : Json, (get_app_list .requestError s).1 = .ok j)
    ∧ (∀ (game_name : Option String) (s : SteamAPIState), s.app_list_cache = none →
        ∃ v, (find_app_id game_name .requestError s).1 = .ok v)
    ∧ (∀ (api_key username : String) (fields : List (String × Json)),
        dictLookup fields "steamid" = none →
        get_steam_id api_key username (.success (.obj [("response", .obj fields)]))
          = .ok none) := by
  refine ⟨fun _ _ => rfl, fun s => ?_, fun gn s hs => ?_, fun k u fields h => ?_⟩
  · cases hc : cacheTruthy s.app_list_cache
    · exact ⟨.arr [], by simp [get_app_list, hc]⟩
    · exact ⟨s.app_list_cache.getD (.arr []), by simp [get_app_list, hc]⟩
  · have hc : cacheTruthy s.app_list_cache = false := by rw [hs]; rfl
    cases gn with
    | none => exact ⟨none, rfl⟩
    | some g =>
      by_cases hg : g = ""
      · exact ⟨none, by simp [find_app_id, hg]⟩
      · refine ⟨none, ?_⟩
        simp [find_app_id, hg, get_app_list_requestError s hc, buildAppDict,
          buildEntries, dictLookup]
  · have h1 : (Json.obj [("response", .obj fields)]).subscript "response"
        = .ok (.obj fields) := rfl
    simp [get_steam_id, h1, Json.dictGet, h]

/-- Witness for claim C1 at concrete inputs. -/
theorem c1_no_exception_witness :
    get_steam_id "key" "user" (.success (.obj [("response", .obj [])])) = .ok none
    ∧ ∃ v, (find_app_id (some "portal") .requestError (SteamAPI.init "key")).1 = .ok v :=
  ⟨c1_no_exception_amended.2.2.2 "key" "user" [] rfl,
   c1_no_exception_amended.2.2.1 (some "portal") (SteamAPI.init "key") rfl⟩

/-- Claim C2: once the cache holds a truthy (non-empty) app list, any number
of further get_app_list calls performs no network request and returns the
cached value with the state unchanged; starting from a fresh instance whose
first fetch succeeds with a non-empty list, n+1 calls issue exactly one
request and all return that list; if every fetch outcome is a failure or an
empty list, n calls from a fresh instance issue n requests. -/
theorem c2_memoization :
    (∀ (oracle : Nat → Transport) (n k : Nat) (s : SteamAPIState) (j : Json),
        s.app_list_cache = some j → j.truthy = true →
        runCalls oracle n s k = (List.replicate n (.ok j), s, k))
    ∧ (∀ (oracle : Nat → Transport) (key : String) (n : Nat) (xs : List (String × Int)),
        xs ≠ [] → oracle 0 = .success (mkAppListBody xs) →
        runCalls oracle (n + 1) (SteamAPI.init key) 0
          = (List.replicate (n + 1) (.ok (mkAppList xs)),
             { api_key := key, app_list_cache := some (mkAppList xs) }, 1))
    ∧ (∀ (oracle : Nat → Transport) (key : String) (n : Nat),
        (∀ j, oracle j = .requestError ∨ oracle j = .success (mkAppListBody [])) →
        (runCalls oracle n (SteamAPI.init key) 0).2.2 = n) := by
  refine ⟨runCalls_cached, runCalls_first_fetch, fun oracle key n h => ?_⟩
  simpa using runCalls_empty_refetch oracle h n 0 (SteamAPI.init key) rfl

/-- Witness for claim C2 at concrete inputs. -/
theorem c2_memoization_witness :
    runCalls (fun _ => .requestError) 3
        { api_key := "key", app_list_cache := some (mkAppList [("A", 1)]) } 1
      = (List.replicate 3 (.ok (mkAppList [("A", 1)])),
         { api_key := "key", app_list_cache := some (mkAppList [("A", 1)]) }, 1)
    ∧ runCalls (fun _ => .success (mkAppListBody [("A", 1)])) 2 (SteamAPI.init "key") 0
      = (List.replicate 2 (.ok (mkAppList [("A", 1)])),
         { api_key := "key", app_list_cache := some (mkAppList [("A", 1)]) }, 1)
    ∧ (runCalls (fun _ => .requestError) 3 (SteamAPI.init "key") 0).2.2 = 3 :=
  ⟨c2_memoization.1 _ 3 1 _ (mkAppList [("A", 1)]) rfl rfl,
   c2_memoization.2.1 _ "key" 1 [("A", 1)] (by decide) rfl,
   c2_memoization.2.2 _ "key" 3 (fun _ => Or.inl rfl)⟩

/-- Claim C3: for every non-empty game name and every well-formed app list,
any app id returned by find_app_id is the id of an entry whose lowercased
name equals the lowercased query; some id is returned when a matching entry
exists; and the result is absence when no entry matches. -/
theorem c3_case_insensitive_lookup :
    ∀ (key g : String) (xs : List (String × Int)), g ≠ "" →
      (∀ a : Int,
          (find_app_id (some g) (.success (mkAppListBody xs)) (SteamAPI.init key)).1
              = .ok (some (.num a)) →
          ∃ p ∈ xs, strLower p.1 = strLower g ∧ p.2 = a)
      ∧ ((∃ p ∈ xs, strLower p.1 = strLower g) →
          ∃ a : Int,
            (find_app_id (some g) (.success (mkAppListBody xs)) (SteamAPI.init key)).1
              = .ok (some (.num a)))
      ∧ ((∀ p ∈ xs, strLower p.1 ≠ strLower g) →
          (find_app_id (some g) (.success (mkAppListBody xs)) (SteamAPI.init key)).1
            = .ok none) := by
  intro key g xs hg
  have hspec := find_app_id_spec key g hg xs
  rw [hspec]
  refine ⟨?_, ?_, ?_⟩
  · intro a ha
    have ha' : (xs.reverse.find? (fun p => strLower p.1 == strLower g)).map
        (fun p => Json.num p.2) = some (.num a) := Except.ok.inj ha
    rcases Option.map_eq_some'.mp ha' with ⟨p, hfind, hval⟩
    refine ⟨p, List.mem_reverse.mp (List.mem_of_find?_eq_some hfind), ?_, ?_⟩
    · simpa using List.find?_some hfind
    · simpa using hval
  · rintro ⟨p, hp, heq⟩
    rcases hfind : xs.reverse.find? (fun p => strLower p.1 == strLower g) with _ | q
    · exfalso
      have := List.find?_eq_none.mp hfind p (List.mem_reverse.mpr hp)
      simp [heq] at this
    · refine ⟨q.2, ?_⟩
      rw [hfind]
      rfl
  · intro hnone
    have : xs.reverse.find? (fun p => strLower p.1 == strLower g) = none := by
      rw [List.find?_eq_none]
      intro p hp
      simpa using hnone p (List.mem_reverse.mp hp)
    simp [this]

/-- Witness for claim C3: the concrete examples of the claim. -/
theorem c3_case_insensitive_witness :
    (find_app_id (some "counter-strike")
        (.success (mkAppListBody [("Counter-Strike", 10)])) (SteamAPI.init "key")).1
      = .ok (some (.num 10))
    ∧ (find_app_id (some "COUNTER-STRIKE")
        (.success (mkAppListBody [("Counter-Strike", 10)])) (SteamAPI.init "key")).1
      = .ok (some (.num 10))
    ∧ (find_app_id (some "NoSuchGame")
        (.success (mkAppListBody [("Counter-Strike", 10)])) (SteamAPI.init "key")).1
      = .ok none :=
  ⟨rfl, rfl,
   (c3_case_insensitive_lookup "key" "NoSuchGame" [("Counter-Strike", 10)]
      (by decide)).2.2 (by decide)⟩

/-- Claim C4, counterexample: with a successful response carrying
response.steamid equal to the empty string, get_steam_id returns None, not
the empty string, so the claim fails when the metavariable X is empty. -/
theorem c4_empty_steamid_counterexample :
    get_steam_id "key" "user" (.success (mkSteamIdBody (.str ""))) = .ok none
    ∧ get_steam_id "key" "user" (.success (mkSteamIdBody (.str "")))
        ≠ .ok (some (.str "")) :=
  ⟨rfl, fun h => Option.noConfusion (Except.ok.inj h)⟩

/-- Claim C4, amended: for every non-empty username and every NON-EMPTY
steamid string X, a successful response carrying response.steamid = X makes
get_steam_id return X. -/
theorem c4_steamid_returned :
    ∀ (api_key username x : String), username ≠ "" → x ≠ "" →
      get_steam_id api_key username (.success (mkSteamIdBody (.str x)))
        = .ok (some (.str x)) := by
  intro k u x hu hx
  have h1 : (mkSteamIdBody (.str x)).subscript "response"
      = .ok (.obj [("steamid", .str x)]) := rfl
  have h2 : (Json.obj [("steamid", .str x)]).dictGet "steamid" = .ok (some (.str x)) := rfl
  simp [get_steam_id, h1, h2, Json.truthy, hx]

/-- Witness for claim C4 at concrete inputs. -/
theorem c4_steamid_returned_witness :
    get_steam_id "key" "user" (.success (mkSteamIdBody (.str "76561197960435530")))
      = .ok (some (.str "76561197960435530")) :=
  c4_steamid_returned "key" "user" "76561197960435530" (by decide) (by decide)

/-- Claim C5: on a transport failure with an unset cache, get_app_list
returns an empty list, leaves the state unchanged, and issued a request; from
that unchanged state every subsequent call issues a request again. -/
theorem c5_transport_failure_retries :
    ∀ s : SteamAPIState, s.app_list_cache = none →
      get_app_list .requestError s = (.ok (.arr []), s, true)
      ∧ (∀ t : Transport, (get_app_list t s).2.2 = true) := by
  intro s hs
  have hc : cacheTruthy s.app_list_cache = false := by rw [hs]; rfl
  exact ⟨get_app_list_requestError s hc, fun t => fetch_flag t s hc⟩

/-- Witness for claim C5 at a concrete state. -/
theorem c5_transport_failure_witness :
    get_app_list .requestError (SteamAPI.init "key")
      = (.ok (.arr []), SteamAPI.init "key", true)
    ∧ (get_app_list .requestError (SteamAPI.init "key")).2.2 = true :=
  ⟨(c5_transport_failure_retries (SteamAPI.init "key") rfl).1,
   (c5_transport_failure_retries (SteamAPI.init "key") rfl).2 .requestError⟩

/-- Claim C6: a successful response whose body is a response object with no
steamid field makes get_steam_id return None without raising. -/
theorem c6_missing_steamid_absent :
    ∀ api_key username : String,
      get_steam_id api_key username (.success (.obj [("response", .obj [])]))
        = .ok none := by
  intro k u
  rfl

/-- Claim C7: when the app list holds an earlier entry and a later entry
whose lowercased names both equal the lowercased query, and nothing after the
later entry matches, find_app_id returns the app id of the later entry: the
dict comprehension overwrites earlier keys, so the last occurrence wins. -/
theorem c7_duplicate_names_last_wins :
    ∀ (key g n : String) (a : Int) (ys zs : List (String × Int)), g ≠ "" →
      (∃ q ∈ ys, strLower q.1 = strLower g) →
      strLower n = strLower g →
      (∀ q ∈ zs, strLower q.1 ≠ strLower g) →
      (find_app_id (some g) (.success (mkAppListBody (ys ++ (n, a) :: zs)))
          (SteamAPI.init key)).1 = .ok (some (.num a)) := by
  intro key g n a ys zs hg _ hn hz
  exact find_app_id_last_match key g n a ys zs hg hn hz

/-- Witness for claim C7 at concrete inputs. -/
theorem c7_duplicate_names_witness :
    (find_app_id (some "x") (.success (mkAppListBody [("X", 1), ("x", 2)]))
        (SteamAPI.init "key")).1 = .ok (some (.num 2)) :=
  c7_duplicate_names_last_wins "key" "x" "x" 2 [("X", 1)] [] (by decide)
    ⟨("X", 1), by decide⟩ (by decide) (by decide)

/-- Claim C8: for an absent (None) or empty game name, find_app_id returns
None at once, issues no network request, and leaves the state unchanged, for
every transport behaviour and every state. -/
theorem c8_empty_name_short_circuit :
    ∀ (t : Transport) (s : SteamAPIState),
      find_app_id none t s = (.ok none, s, false)
      ∧ find_app_id (some "") t s = (.ok none, s, false) := by
  intro t s
  exact ⟨rfl, rfl⟩

/-- Claim C9: an app list entry with app id 0 whose lowercased name matches
the query, with no later matching entry, makes find_app_id return the present
value 0 rather than absence; and in general the value returned for a
non-empty name is exactly the dictionary lookup result. -/
theorem c9_zero_app_id_present :
    (∀ (key g n : String) (xs zs : List (String × Int)), g ≠ "" →
        strLower n = strLower g →
        (∀ q ∈ zs, strLower q.1 ≠ strLower g) →
        (find_app_id (some g) (.success (mkAppListBody (xs ++ (n, 0) :: zs)))
            (SteamAPI.init key)).1 = .ok (some (.num 0)))
    ∧ (∀ (key g : String) (ys : List (String × Int)), g ≠ "" →
        ∃ d, buildAppDict (mkAppList ys) = .ok d
          ∧ (find_app_id (some g) (.success (mkAppListBody ys))
              (SteamAPI.init key)).1 = .ok (dictLookup d (strLower g))) := by
  constructor
  · intro key g n xs zs hg hn hz
    exact find_app_id_last_match key g n 0 xs zs hg hn hz
  · intro key g ys hg
    refine ⟨ys.map fun p => (strLower p.1, Json.num p.2), ?_, ?_⟩
    · simp [buildAppDict, mkAppList, buildEntries_mkAppList]
    · rw [find_app_id_spec key g hg ys, dictLookup_map]

/-- Witness for claim C9 at concrete inputs. -/
theorem c9_zero_app_id_witness :
    (find_app_id (some "z") (.success (mkAppListBody [("Z", 0)]))
        (SteamAPI.init "key")).1 = .ok (some (.num 0)) :=
  c9_zero_app_id_present.1 "key" "z" "Z" [] [] (by decide) (by decide) (by decide)

/-- Claim C10: a successful response carrying response.steamid equal to the
empty string makes get_steam_id return None, the same result as a response
with no steamid field at all. -/
theorem c10_empty_steamid_treated_missing :
    ∀ api_key username : String,
      get_steam_id api_key username (.success (mkSteamIdBody (.str "")))
        = .ok none
      ∧ get_steam_id api_key username (.success (mkSteamIdBody (.str "")))
        = get_steam_id api_key username (.success (.obj [("response", .obj [])])) := by
  intro k u
  exact ⟨rfl, rfl⟩
